import Mathlib

/-!
Verification of the identity-broker core of the UserService repository
(`app/infrastructure/repositories/user_repository.py` and the schemas and
router it serves).  The Python source is shallowly embedded: bytes are `Nat`
values below 256, machine words are `Nat` values reduced modulo `2 ^ 32`,
Python `None` becomes `Option`, and Python string truthiness is made explicit.
-/

namespace UserService

/-! ## Word and byte primitives (32-bit arithmetic as `Nat` modulo `2 ^ 32`) -/

/-- Modulus for 32-bit words. -/
def M32 : Nat := 2 ^ 32

/-- Addition of 32-bit words. -/
def wadd (a b : Nat) : Nat := (a + b) % M32

/-- Right rotation of a 32-bit word by `n` bits. -/
def rotr (n x : Nat) : Nat := ((x >>> n) ||| (x <<< (32 - n))) % M32

/-- Bitwise complement of a 32-bit word. -/
def wnot (x : Nat) : Nat := x ^^^ (M32 - 1)

/-- Big-endian byte serialization of `x` into `n` bytes. -/
def bytesBE (n x : Nat) : List Nat :=
  (List.range n).map (fun i => (x >>> (8 * (n - 1 - i))) % 256)

/-! ## SHA-256 (FIPS 180-4), the digest used by the repository through
`hashlib.sha256`. -/

/-- SHA-256 round constants (FIPS 180-4 §4.2.2, written in decimal). -/
def shaK : List Nat :=
  [1116352408, 1899447441, 3049323471, 3921009573, 961987163, 1508970993,
   2453635748, 2870763221, 3624381080, 310598401, 607225278, 1426881987,
   1925078388, 2162078206, 2614888103, 3248222580, 3835390401, 4022224774,
   264347078, 604807628, 770255983, 1249150122, 1555081692, 1996064986,
   2554220882, 2821834349, 2952996808, 3210313671, 3336571891, 3584528711,
   113926993, 338241895, 666307205, 773529912, 1294757372, 1396182291,
   1695183700, 1986661051, 2177026350, 2456956037, 2730485921, 2820302411,
   3259730800, 3345764771, 3516065817, 3600352804, 4094571909, 275423344,
   430227734, 506948616, 659060556, 883997877, 958139571, 1322822218,
   1537002063, 1747873779, 1955562222, 2024104815, 2227730452, 2361852424,
   2428436474, 2756734187, 3204031479, 3329325298]

/-- SHA-256 initial hash value (FIPS 180-4 §5.3.3, written in decimal). -/
def shaH0 : List Nat :=
  [1779033703, 3144134277, 1013904242, 2773480762,
   1359893119, 2600822924, 528734635, 1541459225]

/-- Big sigma 0. -/
def bsig0 (x : Nat) : Nat := rotr 2 x ^^^ rotr 13 x ^^^ rotr 22 x

/-- Big sigma 1. -/
def bsig1 (x : Nat) : Nat := rotr 6 x ^^^ rotr 11 x ^^^ rotr 25 x

/-- Small sigma 0. -/
def ssig0 (x : Nat) : Nat := rotr 7 x ^^^ rotr 18 x ^^^ (x >>> 3)

/-- Small sigma 1. -/
def ssig1 (x : Nat) : Nat := rotr 17 x ^^^ rotr 19 x ^^^ (x >>> 10)

/-- Choice function. -/
def ch (x y z : Nat) : Nat := (x &&& y) ^^^ (wnot x &&& z)

/-- Majority function. -/
def maj (x y z : Nat) : Nat := (x &&& y) ^^^ (x &&& z) ^^^ (y &&& z)

/-- Group a byte list into big-endian 32-bit words. -/
def toWords : List Nat → List Nat
  | b0 :: b1 :: b2 :: b3 :: rest =>
      (((b0 <<< 24) ||| (b1 <<< 16) ||| (b2 <<< 8) ||| b3) % M32) :: toWords rest
  | _ => []

/-- Extend the 16-word message block with `n` further schedule words. -/
def extendSchedule : Nat → List Nat → List Nat
  | 0, w => w
  | n + 1, w =>
      let t := w.length
      let wt := wadd (wadd (ssig1 (w.getD (t - 2) 0)) (w.getD (t - 7) 0))
                     (wadd (ssig0 (w.getD (t - 15) 0)) (w.getD (t - 16) 0))
      extendSchedule n (w ++ [wt])

/-- Full 64-entry message schedule of a block. -/
def schedule (block : List Nat) : List Nat := extendSchedule 48 (toWords block)

/-- One SHA-256 compression round on the eight-word state. -/
def shaRound (st : List Nat) (kw : Nat × Nat) : List Nat :=
  match st with
  | [a, b, c, d, e, f, g, h] =>
      let t1 := wadd h (wadd (bsig1 e) (wadd (ch e f g) (wadd kw.1 kw.2)))
      let t2 := wadd (bsig0 a) (maj a b c)
      [wadd t1 t2, a, b, c, wadd d t1, e, f, g]
  | st => st

/-- Compress one 64-byte block into the running hash value. -/
def compress (h : List Nat) (block : List Nat) : List Nat :=
  let st := (shaK.zip (schedule block)).foldl shaRound h
  (h.zip st).map (fun p => wadd p.1 p.2)

/-- Append the SHA-256 padding: a 0x80 byte, zeros, and the 64-bit bit length,
reaching a multiple of 64 bytes. -/
def padMessage (msg : List Nat) : List Nat :=
  let z := (119 - msg.length % 64) % 64
  msg ++ 0x80 :: (List.replicate z 0 ++ bytesBE 8 (8 * msg.length))

/-- Cut a byte list into consecutive 64-byte blocks (`n` counts the blocks). -/
def chunks64Aux : Nat → List Nat → List (List Nat)
  | 0, _ => []
  | n + 1, l => l.take 64 :: chunks64Aux n (l.drop 64)

/-- Cut a padded message into its 64-byte blocks. -/
def chunks64 (l : List Nat) : List (List Nat) := chunks64Aux (l.length / 64) l

/-- SHA-256 digest of a byte list, as 32 bytes. -/
def sha256 (msg : List Nat) : List Nat :=
  (((chunks64 (padMessage msg)).foldl compress shaH0).map (bytesBE 4)).flatten

/-! ## UTF-8 encoding, matching `bytes(s, "utf-8")` in the source. -/

/-- UTF-8 encoding of one Unicode code point. -/
def utf8Bytes (c : Nat) : List Nat :=
  if c < 0x80 then [c]
  else if c < 0x800 then
    [0xC0 ||| (c >>> 6), 0x80 ||| (c &&& 0x3F)]
  else if c < 0x10000 then
    [0xE0 ||| (c >>> 12), 0x80 ||| ((c >>> 6) &&& 0x3F), 0x80 ||| (c &&& 0x3F)]
  else
    [0xF0 ||| (c >>> 18), 0x80 ||| ((c >>> 12) &&& 0x3F),
     0x80 ||| ((c >>> 6) &&& 0x3F), 0x80 ||| (c &&& 0x3F)]

/-- UTF-8 encoding of a string. -/
def utf8Encode (s : String) : List Nat :=
  (s.data.map (fun c => utf8Bytes c.toNat)).flatten

/-! ## HMAC (RFC 2104) instantiated with SHA-256, matching
`hmac.new(secret, message, hashlib.sha256)` in the source. -/

/-- HMAC-SHA-256 of `msg` under `key`, both byte lists. -/
def hmacSha256 (key msg : List Nat) : List Nat :=
  let k1 := if 64 < key.length then sha256 key else key
  let k0 := k1 ++ List.replicate (64 - k1.length) 0
  let ipad := k0.map (fun b => b ^^^ 0x36)
  let opad := k0.map (fun b => b ^^^ 0x5c)
  sha256 (opad ++ sha256 (ipad ++ msg))

/-! ## Base64 encoding, matching `base64.b64encode(dig).decode()`. -/

/-- Base64 alphabet. -/
def b64Alphabet : String :=
  "ABCDEFGHIJKLMNOPQRSTUVWXYZabcdefghijklmnopqrstuvwxyz0123456789+/"

/-- Character of the Base64 alphabet at index `n`. -/
def b64Char (n : Nat) : Char := b64Alphabet.data.getD n 'A'

/-- Encode bytes in groups of three, with `=` padding; the first argument is
fuel bounding the recursion by the input length. -/
def b64EncodeAux : Nat → List Nat → List Char
  | _, [] => []
  | 0, _ => []
  | n + 1, b0 :: rest =>
    match rest with
    | b1 :: b2 :: rest2 =>
        b64Char (b0 >>> 2) :: b64Char (((b0 % 4) <<< 4) ||| (b1 >>> 4)) ::
        b64Char (((b1 % 16) <<< 2) ||| (b2 >>> 6)) :: b64Char (b2 % 64) ::
        b64EncodeAux n rest2
    | [b1] =>
        [b64Char (b0 >>> 2), b64Char (((b0 % 4) <<< 4) ||| (b1 >>> 4)),
         b64Char ((b1 % 16) <<< 2), '=']
    | [] =>
        [b64Char (b0 >>> 2), b64Char ((b0 % 4) <<< 4), '=', '=']

/-- Base64 encoding of a byte list as a string. -/
def base64Encode (bytes : List Nat) : String := ⟨b64EncodeAux bytes.length bytes⟩

/-! ## Data shapes of the core -/

/-- Application error record.  In the source this is `AppException(message,
status_code)` — constructed throughout `user_repository.py` and read back as
`exc.message` and `exc.status_code` in `core/error_handler.py`. -/
structure AppException where
  message : String
  statusCode : Nat
deriving DecidableEq

/-- Configuration resolved once at repository construction: directory (user
pool), app client identifier, optional client secret
(`COGNITO_CLIENT_SECRET`, default `None`). -/
structure CognitoConfig where
  userPoolId : String
  clientId : String
  clientSecret : Option String
deriving DecidableEq

/-- Python truthiness of an optional string: `None` and the empty string are
falsy, every other string is truthy. -/
def pyTruthy : Option String → Bool
  | none => false
  | some s => !(s == "")

/-- Python `a or b` on strings: the left operand unless it is empty. -/
def pyOr (a b : String) : String := if a = "" then b else a

/-- Python `a or b` where `a` is `None` or a string and the result is a
string: `None` and `""` both fall through to `b`. -/
def pyOrStr (a : Option String) (b : String) : String :=
  match a with
  | none => b
  | some s => if s = "" then b else s

/-- Python `s.split(sep)[0]` for a one-character separator: the text before
the first separator (the whole string when the separator does not occur;
empty on the empty string). -/
def splitHead (s : String) (sep : Char) : String :=
  ⟨s.data.takeWhile (fun c => !(c == sep))⟩

/-- Python `s.lower()` on the ASCII range, matching `str.lower` on every
string the mapper compares. -/
def strLower (s : String) : String := ⟨s.data.map Char.toLower⟩

/-! ## Secret-hash deriver (`UserRepository._get_secret_hash`) -/

/-- Embedding of `_get_secret_hash`: `None` when no client secret is
configured (Python truthiness: absent or empty), otherwise the Base64 text of
the HMAC-SHA-256 digest of `username + client_id` keyed by the secret. -/
def getSecretHash (clientSecret : Option String) (clientId username : String) :
    Option String :=
  match clientSecret with
  | none => none
  | some s =>
      if s = "" then none
      else some (base64Encode (hmacSha256 (utf8Encode s)
        (utf8Encode (username ++ clientId))))

/-- Statement of §4.1 of the specification in its own words: derive takes the
username, the client identifier and the optional client secret; when the
secret is absent or empty it returns nothing, and otherwise the Base64-encoded
ASCII text of the HMAC-SHA-256 digest, keyed by the secret, of the username
concatenated with the client identifier with no separator. -/
def deriveSpec (username clientId : String) (clientSecret : Option String) :
    Option String :=
  if clientSecret = none ∨ clientSecret = some "" then none
  else
    (clientSecret.map fun secret =>
      base64Encode (hmacSha256 (utf8Encode secret)
        (utf8Encode (username ++ clientId))))

/-! ## Error normalizer (`UserRepository._handle_cognito_error`) -/

/-- Embedding of `_handle_cognito_error`: the `AppException` raised for a
provider `ClientError` carrying the given code and message. -/
def handleCognitoError (code message : String) : AppException :=
  match code with
  | "UsernameExistsException" => ⟨"User account already exists", 409⟩
  | "UserNotFoundException" => ⟨"User not found", 404⟩
  | "UserNotConfirmedException" =>
      ⟨"Please verify your email before logging in. Check your inbox for the confirmation code.", 403⟩
  | "NotAuthorizedException" => ⟨"Authentication failed: " ++ message, 401⟩
  | "InvalidParameterException" => ⟨"Invalid parameter: " ++ message, 400⟩
  | "CodeMismatchException" => ⟨"Invalid verification code. Please try again.", 400⟩
  | "ExpiredCodeException" =>
      ⟨"Verification code has expired. Please request a new one.", 400⟩
  | "TooManyFailedAttemptsException" =>
      ⟨"Too many failed attempts, please try again later", 429⟩
  | "TooManyRequestsException" => ⟨"Too many requests, please slow down", 429⟩
  | "LimitExceededException" =>
      ⟨"Attempt limit exceeded, please try after some time", 429⟩
  | "ResourceNotFoundException" =>
      ⟨"User pool or app client not found. Check your configuration.", 404⟩
  | _ => ⟨"Cognito error [" ++ code ++ "]: " ++ message, 500⟩

/-- The provider codes the normalizer matches explicitly (the table of §4.2). -/
def knownCognitoCodes : List String :=
  ["UsernameExistsException", "UserNotFoundException", "UserNotConfirmedException",
   "NotAuthorizedException", "InvalidParameterException", "CodeMismatchException",
   "ExpiredCodeException", "TooManyFailedAttemptsException",
   "TooManyRequestsException", "LimitExceededException",
   "ResourceNotFoundException"]

/-! ## Attribute mapper (`UserRepository._map_user` and the mapping inlined in
`get_current_user`) -/

/-- Lookup in the dict built by `{attr["Name"]: attr["Value"] for attr in ...}`:
with duplicate names the later entry overwrites the earlier one. -/
def attrsGet (attrs : List (String × String)) (k : String) : Option String :=
  (attrs.reverse.find? (fun p => p.1 == k)).map (·.2)

/-- Python `attrs.get(k, d)`. -/
def attrsGetD (attrs : List (String × String)) (k d : String) : String :=
  (attrsGet attrs k).getD d

/-- Provider user payload as consumed by `_map_user`: the attribute list, the
optional internal `Username` field and the optional `Enabled` flag. -/
structure CognitoUser where
  attributes : List (String × String)
  username : Option String
  enabled : Option Bool
deriving DecidableEq

/-- Canonical user record (the fields of `UserOut` that the mapper computes
from provider data; the synthesized timestamps carry no information and are
omitted). -/
structure UserOut where
  email : String
  username : String
  phone_number : String
  profile_image_url : String
  is_active : Bool
  email_verified : Bool
deriving DecidableEq

/-- Username chain of `_map_user`:
`attrs.get("name") or attrs.get("preferred_username") or
attrs.get("email", "").split("@")[0] or user.get("Username", "")`. -/
def mapUsername (attrs : List (String × String)) (internal : String) : String :=
  pyOrStr (attrsGet attrs "name")
    (pyOrStr (attrsGet attrs "preferred_username")
      (pyOr (splitHead (attrsGetD attrs "email" "") '@') internal))

/-- Embedding of `_map_user`. -/
def mapUser (user : CognitoUser) : UserOut :=
  let attrs := user.attributes
  { email := attrsGetD attrs "email" ""
    username := mapUsername attrs (user.username.getD "")
    phone_number := attrsGetD attrs "phone_number" ""
    profile_image_url := attrsGetD attrs "custom:profile_image_url" ""
    is_active := user.enabled.getD true
    email_verified := strLower (attrsGetD attrs "email_verified" "false") == "true" }

/-- Embedding of the mapping inlined in `get_current_user`: same chain but with
no internal-identifier fallback, and `is_active` fixed to true. -/
def getCurrentUserOut (userAttributes : List (String × String)) : UserOut :=
  { email := attrsGetD userAttributes "email" ""
    username := pyOrStr (attrsGet userAttributes "name")
      (pyOrStr (attrsGet userAttributes "preferred_username")
        (splitHead (attrsGetD userAttributes "email" "") '@'))
    phone_number := attrsGetD userAttributes "phone_number" ""
    profile_image_url := attrsGetD userAttributes "custom:profile_image_url" ""
    is_active := true
    email_verified :=
      strLower (attrsGetD userAttributes "email_verified" "false") == "true" }

/-- First non-empty string of a list, stated the way §4.3 words the priority
chain; empty when every entry is empty. -/
def firstNonempty : List String → String
  | [] => ""
  | s :: rest => if s = "" then firstNonempty rest else s

/-! ## Signup (`UserRepository.signup`) -/

/-- Input schema `UserCreate`: required email and password, optional username
and phone number (`None` by default), profile image defaulting to the empty
string. -/
structure UserCreate where
  email : String
  username : Option String
  password : String
  phone_number : Option String
  profile_image_url : Option String
deriving DecidableEq

/-- The request `signup` submits through `client.sign_up(**signup_params)`;
`secretHash` is `none` exactly when the `SecretHash` key is absent from the
keyword dictionary. -/
structure SignupParams where
  clientId : String
  username : String
  password : String
  userAttributes : List (String × String)
  secretHash : Option String
deriving DecidableEq

/-- Embedding of the request-shaping half of `signup`: the attribute list is
email, then name (the username when truthy, else the email local part), then
phone and profile image only when truthy; `SecretHash` is attached only when a
client secret is configured. -/
def buildSignupParams (cfg : CognitoConfig) (u : UserCreate) : SignupParams :=
  let userAttributes :=
    [("email", u.email)] ++
    [("name", if pyTruthy u.username then u.username.getD ""
              else splitHead u.email '@')] ++
    (if pyTruthy u.phone_number then [("phone_number", u.phone_number.getD "")]
     else []) ++
    (if pyTruthy u.profile_image_url then
      [("custom:profile_image_url", u.profile_image_url.getD "")]
     else [])
  { clientId := cfg.clientId
    username := u.email
    password := u.password
    userAttributes := userAttributes
    secretHash :=
      if pyTruthy cfg.clientSecret then
        getSecretHash cfg.clientSecret cfg.clientId u.email
      else none }

/-- Provider response to `sign_up` as read by the source: `UserConfirmed` and
the code delivery details. -/
structure SignUpResponse where
  userConfirmed : Option Bool
  codeDeliveryMedium : Option String
  codeDeliveryDestination : Option String
deriving DecidableEq

/-- Success payload returned by `signup`. -/
structure SignupResult where
  message : String
  email : String
  username : String
  user_confirmed : Bool
  code_delivery_medium : Option String
  code_delivery_destination : Option String
deriving DecidableEq

/-- Embedding of the result-shaping half of `signup` on provider success. -/
def signupResult (u : UserCreate) (r : SignUpResponse) : SignupResult :=
  { message := "User registered successfully. Please check your email for the verification code."
    email := u.email
    username := pyOrStr u.username (splitHead u.email '@')
    user_confirmed := r.userConfirmed.getD false
    code_delivery_medium := r.codeDeliveryMedium
    code_delivery_destination := r.codeDeliveryDestination }

/-! ## Refresh token (`UserRepository.refresh_token`) -/

/-- Value of a Python result dictionary entry (string or integer suffice for
the payloads modelled here). -/
inductive PyVal where
  | s (v : String)
  | n (v : Nat)
deriving DecidableEq

/-- Request submitted through `client.admin_initiate_auth` for a flow. -/
structure AdminInitiateAuthRequest where
  userPoolId : String
  clientId : String
  authFlow : String
  authParameters : List (String × String)
deriving DecidableEq

/-- Embedding of the request half of `refresh_token`: auth parameters hold only
`REFRESH_TOKEN`; the configured client secret is never consulted. -/
def buildRefreshRequest (cfg : CognitoConfig) (refreshToken : String) :
    AdminInitiateAuthRequest :=
  { userPoolId := cfg.userPoolId
    clientId := cfg.clientId
    authFlow := "REFRESH_TOKEN_AUTH"
    authParameters := [("REFRESH_TOKEN", refreshToken)] }

/-- The `AuthenticationResult` fields the source reads from the provider
response (the provider may also return a `RefreshToken`, which the refresh
flow never reads). -/
structure AuthenticationResult where
  accessToken : String
  refreshToken : Option String
  idToken : String
  tokenType : String
  expiresIn : Nat
deriving DecidableEq

/-- Embedding of the result dictionary of `refresh_token` on success, as the
ordered key-value pairs of the returned Python dict. -/
def refreshResult (tokens : AuthenticationResult) : List (String × PyVal) :=
  [("status", .s "SUCCESS"),
   ("access_token", .s tokens.accessToken),
   ("id_token", .s tokens.idToken),
   ("token_type", .s tokens.tokenType),
   ("expires_in", .n tokens.expiresIn)]

/-! ## Update (`UserRepository.update` and schema `UserUpdate`) -/

/-- Update schema with pydantic set-ness made explicit: the outer `Option` is
`none` when the field was not supplied (excluded by
`dict(exclude_unset=True)`), and `some v` when it was explicitly set to `v`
(which may itself be `None` for the three optional string fields).
`updated_at` has a non-optional type with a default factory, so when set it
holds a (stringified) timestamp value. -/
structure UserUpdate where
  username : Option (Option String)
  email : Option (Option String)
  phone_number : Option (Option String)
  profile_image_url : Option (Option String)
  updated_at : Option String
deriving DecidableEq

/-- Field-name translation table of `update`. -/
def nameMapping (key : String) : Option String :=
  match key with
  | "profile_image_url" => some "custom:profile_image_url"
  | "phone_number" => some "phone_number"
  | "email" => some "email"
  | "username" => some "name"
  | _ => none

/-- One iteration of the loop in `update` for the dict item `(key, v)`:
nothing when the field is unset (not in the dict), when its value is `None`
(`continue`), or when `name_mapping` has no entry for the key; otherwise the
single translated attribute. -/
def attrEntry (key : String) (v : Option (Option String)) :
    List (String × String) :=
  match v with
  | none => []
  | some none => []
  | some (some s) =>
      match nameMapping key with
      | none => []
      | some n => [(n, s)]

/-- Embedding of the attribute-building loop of `update`, unrolled over the
field (dict) order of `UserUpdate`. -/
def updateAttributes (u : UserUpdate) : List (String × String) :=
  attrEntry "username" u.username ++
  attrEntry "email" u.email ++
  attrEntry "phone_number" u.phone_number ++
  attrEntry "profile_image_url" u.profile_image_url ++
  attrEntry "updated_at" (u.updated_at.map some)

/-- Outcome of `update`: either the early informational return with no
provider call, or one `admin_update_user_attributes` call with the built
attribute list followed by the success message. -/
inductive UpdateOutcome where
  | noop (message : String)
  | callProvider (username : String) (attributes : List (String × String))
      (message : String)
deriving DecidableEq

/-- Embedding of `update`. -/
def update (username : String) (u : UserUpdate) : UpdateOutcome :=
  let attributes := updateAttributes u
  if attributes = [] then .noop "No attributes to update"
  else .callProvider username attributes "User updated successfully"

/-! ## List users (router `list_users` and `UserRepository.get_all`) -/

/-- Parameters `get_all` passes to `client.list_users`: `PaginationToken` is
attached only when the token is truthy. -/
structure ListUsersParams where
  userPoolId : String
  limit : Int
  paginationToken : Option String
deriving DecidableEq

/-- Embedding of the request half of `get_all`. -/
def buildListUsersParams (userPoolId : String) (limit : Int)
    (token : Option String) : ListUsersParams :=
  { userPoolId := userPoolId
    limit := limit
    paginationToken := if pyTruthy token then some (token.getD "") else none }

/-- Outcome of the `GET /users/` route for a given query: FastAPI validates
`limit: int = Query(20, le=60)` before the handler body runs, rejecting
values above 60 with a 422 validation error and substituting 20 when the
query parameter is absent; otherwise the handler calls `get_all`. -/
inductive ListUsersRoute where
  | rejected (status : Nat)
  | callProvider (params : ListUsersParams)
deriving DecidableEq

/-- Embedding of the route: validation of the declared bound, then the
provider request built by `get_all`. -/
def listUsersRoute (userPoolId : String) (limit : Option Int)
    (token : Option String) : ListUsersRoute :=
  match limit with
  | none => .callProvider (buildListUsersParams userPoolId 20 token)
  | some l =>
      if 60 < l then .rejected 422
      else .callProvider (buildListUsersParams userPoolId l token)

/-! ## Sanity vectors for the byte-level primitives -/

/-- Known-answer check: SHA-256 of the three ASCII bytes of "abc" is the FIPS
180-4 example digest. -/
theorem sha256_abc_vector :
    sha256 (utf8Encode "abc") =
      [186, 120, 22, 191, 143, 1, 207, 234,
       65, 65, 64, 222, 93, 174, 34, 35,
       176, 3, 97, 163, 150, 23, 122, 156,
       180, 16, 255, 97, 242, 0, 21, 173] := by
  decide

set_option maxRecDepth 16384 in
/-- Known-answer check for the whole secret-hash pipeline, against the value
of `base64.b64encode(hmac.new(b"sec", b"uc", hashlib.sha256).digest())`. -/
theorem getSecretHash_vector :
    getSecretHash (some "sec") "c" "u" =
      some "+Mvc6y/7r741rA/DaRMfOSgi1wmJ+gIlA+50VUbYH4Q=" := by
  decide

/-! ## Helper lemmas -/

/-- Python `or` keeps a non-empty right operand non-empty. -/
theorem pyOr_ne_empty (a b : String) (h : b ≠ "") : pyOr a b ≠ "" := by
  unfold pyOr
  split_ifs with h1
  · exact h
  · exact h1

/-- Python `or` over an optional left operand keeps a non-empty right operand
non-empty. -/
theorem pyOrStr_ne_empty (a : Option String) (b : String) (h : b ≠ "") :
    pyOrStr a b ≠ "" := by
  cases a with
  | none => exact h
  | some s =>
      show (if s = "" then b else s) ≠ ""
      by_cases h1 : s = ""
      · rw [if_pos h1]; exact h
      · rw [if_neg h1]; exact h1

/-- The Python truthiness chain of `_map_user` is the first non-empty entry of
the corresponding list. -/
theorem chain_eq_firstNonempty (a b : Option String) (c d : String) :
    pyOrStr a (pyOrStr b (pyOr c d)) =
      firstNonempty [a.getD "", b.getD "", c, d] := by
  cases a <;> cases b <;>
    simp only [pyOrStr, pyOr, firstNonempty, Option.getD] <;>
    split_ifs <;> simp_all

/-- Membership in one loop iteration of `update` forces the translated name
and the explicitly set, non-`None` value. -/
theorem attrEntry_mem (key : String) (v : Option (Option String))
    (p : String × String) (hp : p ∈ attrEntry key v) :
    nameMapping key = some p.1 ∧ v = some (some p.2) := by
  rcases v with _ | (_ | s)
  · simp [attrEntry] at hp
  · simp [attrEntry] at hp
  · rcases h : nameMapping key with _ | n
    · simp [attrEntry, h] at hp
    · simp [attrEntry, h] at hp
      subst hp
      exact ⟨rfl, rfl⟩

/-- The `updated_at` dict entry never contributes an attribute: its key has no
row in the name-mapping table. -/
theorem attrEntry_updated_at (v : Option (Option String)) :
    attrEntry "updated_at" v = [] := by
  rcases v with _ | (_ | s) <;> rfl

/-! ## Claim theorems -/

/-- C2: for every username and client identifier, when the configured client
secret is absent or empty the deriver returns nothing, and otherwise it
returns the Base64-encoded ASCII text of the HMAC-SHA-256 digest, keyed by the
secret, of the username concatenated with the client identifier with no
separator — the source `_get_secret_hash` coincides with the §4.1 contract. -/
theorem getSecretHash_matches_derive (username clientId : String)
    (clientSecret : Option String) :
    getSecretHash clientSecret clientId username =
      deriveSpec username clientId clientSecret := by
  cases clientSecret with
  | none => rfl
  | some s =>
      by_cases h : s = "" <;> simp [getSecretHash, deriveSpec, h]

/-- C1: the error normalizer always produces an application error (status at
least 400, never a success value), maps each provider code of the §4.2 table
to exactly the listed status, and maps every code outside the table to 500. -/
theorem handleCognitoError_table :
    (∀ code message, 400 ≤ (handleCognitoError code message).statusCode) ∧
    (∀ m, (handleCognitoError "UsernameExistsException" m).statusCode = 409) ∧
    (∀ m, (handleCognitoError "UserNotFoundException" m).statusCode = 404) ∧
    (∀ m, (handleCognitoError "UserNotConfirmedException" m).statusCode = 403) ∧
    (∀ m, (handleCognitoError "NotAuthorizedException" m).statusCode = 401) ∧
    (∀ m, (handleCognitoError "InvalidParameterException" m).statusCode = 400) ∧
    (∀ m, (handleCognitoError "CodeMismatchException" m).statusCode = 400) ∧
    (∀ m, (handleCognitoError "ExpiredCodeException" m).statusCode = 400) ∧
    (∀ m, (handleCognitoError "TooManyFailedAttemptsException" m).statusCode = 429) ∧
    (∀ m, (handleCognitoError "TooManyRequestsException" m).statusCode = 429) ∧
    (∀ m, (handleCognitoError "LimitExceededException" m).statusCode = 429) ∧
    (∀ m, (handleCognitoError "ResourceNotFoundException" m).statusCode = 404) ∧
    (∀ code m, code ∉ knownCognitoCodes →
      (handleCognitoError code m).statusCode = 500) := by
  refine ⟨?_, fun m => rfl, fun m => rfl, fun m => rfl, fun m => rfl,
    fun m => rfl, fun m => rfl, fun m => rfl, fun m => rfl, fun m => rfl,
    fun m => rfl, fun m => rfl, ?_⟩
  · intro code message
    unfold handleCognitoError
    split <;> norm_num
  · intro code m h
    unfold handleCognitoError
    split <;> simp_all [knownCognitoCodes]

/-- C1 witness: the listed code 409 case and an unknown code falling through
to 500, at concrete inputs. -/
theorem handleCognitoError_table_witness :
    (handleCognitoError "UsernameExistsException" "msg").statusCode = 409 ∧
    (handleCognitoError "SomeOtherException" "msg").statusCode = 500 := by
  have h := handleCognitoError_table
  exact ⟨h.2.1 "msg",
    h.2.2.2.2.2.2.2.2.2.2.2.2 "SomeOtherException" "msg" (by decide)⟩

/-- C6: for every configuration (client secret present or absent) and every
refresh token, the refresh request carries only the `REFRESH_TOKEN` auth
parameter — never a secret hash — and the success payload has status SUCCESS
and exactly the access-token, ID-token, token-type and expiry fields, with no
refresh-token field. -/
theorem refreshToken_no_secret_hash (cfg : CognitoConfig) (token : String)
    (tokens : AuthenticationResult) :
    (buildRefreshRequest cfg token).authParameters = [("REFRESH_TOKEN", token)] ∧
    (buildRefreshRequest cfg token).authFlow = "REFRESH_TOKEN_AUTH" ∧
    (refreshResult tokens).map Prod.fst =
      ["status", "access_token", "id_token", "token_type", "expires_in"] ∧
    List.lookup "status" (refreshResult tokens) = some (.s "SUCCESS") := by
  exact ⟨rfl, rfl, rfl, rfl⟩

/-- C7: a list-users call with a limit above 60 is rejected by the declared
validation bound with a 422 before any provider request is built; a limit of
at most 60 reaches the provider with that limit, and an absent limit defaults
to 20. -/
theorem listUsers_limit_bound (pool : String) (tok : Option String) (l : Int) :
    (60 < l → listUsersRoute pool (some l) tok = .rejected 422) ∧
    (l ≤ 60 → listUsersRoute pool (some l) tok =
      .callProvider (buildListUsersParams pool l tok)) ∧
    listUsersRoute pool none tok =
      .callProvider (buildListUsersParams pool 20 tok) := by
  refine ⟨fun h => ?_, fun h => ?_, rfl⟩
  · simp [listUsersRoute, h]
  · simp [listUsersRoute, not_lt.mpr h]

/-- C7 witness: limit 61 is rejected and limit 60 is accepted. -/
theorem listUsers_limit_bound_witness :
    listUsersRoute "pool" (some 61) none = ListUsersRoute.rejected 422 ∧
    listUsersRoute "pool" (some 60) none =
      ListUsersRoute.callProvider (buildListUsersParams "pool" 60 none) :=
  ⟨(listUsers_limit_bound "pool" none 61).1 (by decide),
   (listUsers_limit_bound "pool" none 60).2.1 (by decide)⟩

/-- C3: the mapped username is the first non-empty value of the chain name
attribute, preferred-username attribute, email local part, provider internal
identifier; in particular a present non-empty name attribute (such as "Bob")
wins regardless of the other attributes. -/
theorem mapUser_username_priority (user : CognitoUser) :
    (mapUser user).username =
      firstNonempty
        [(attrsGet user.attributes "name").getD "",
         (attrsGet user.attributes "preferred_username").getD "",
         splitHead (attrsGetD user.attributes "email" "") '@',
         user.username.getD ""] ∧
    (attrsGet user.attributes "name" = some "Bob" →
      (mapUser user).username = "Bob") := by
  have h1 : (mapUser user).username =
      firstNonempty
        [(attrsGet user.attributes "name").getD "",
         (attrsGet user.attributes "preferred_username").getD "",
         splitHead (attrsGetD user.attributes "email" "") '@',
         user.username.getD ""] :=
    chain_eq_firstNonempty _ _ _ _
  refine ⟨h1, fun hb => ?_⟩
  rw [h1, hb]
  show firstNonempty ("Bob" :: _) = "Bob"
  rw [firstNonempty, if_neg (by decide)]

/-- C3 witness: the two concrete attribute bags of the claim, with the Bob
hypothesis discharged through the theorem. -/
theorem mapUser_username_priority_witness :
    (mapUser ⟨[("name", ""), ("preferred_username", ""), ("email", "a@b.com")],
        some "uuid-1", none⟩).username = "a" ∧
    (mapUser ⟨[("name", "Bob"), ("email", "x@y.com")],
        none, some true⟩).username = "Bob" :=
  ⟨by decide,
   (mapUser_username_priority
      ⟨[("name", "Bob"), ("email", "x@y.com")], none, some true⟩).2 (by decide)⟩

/-- C4: signup of email a@b.com, username a, password Secret1! with no client
secret configured submits exactly the attributes email and name with no
SecretHash entry, and on provider success reporting the user unconfirmed the
result carries the email, the username a and a false confirmed flag. -/
theorem signup_scenario (userPoolId clientId : String)
    (medium dest : Option String) :
    (buildSignupParams ⟨userPoolId, clientId, none⟩
        ⟨"a@b.com", some "a", "Secret1!", none, some ""⟩).userAttributes =
      [("email", "a@b.com"), ("name", "a")] ∧
    (buildSignupParams ⟨userPoolId, clientId, none⟩
        ⟨"a@b.com", some "a", "Secret1!", none, some ""⟩).secretHash = none ∧
    (signupResult ⟨"a@b.com", some "a", "Secret1!", none, some ""⟩
        ⟨some false, medium, dest⟩).email = "a@b.com" ∧
    (signupResult ⟨"a@b.com", some "a", "Secret1!", none, some ""⟩
        ⟨some false, medium, dest⟩).username = "a" ∧
    (signupResult ⟨"a@b.com", some "a", "Secret1!", none, some ""⟩
        ⟨some false, medium, dest⟩).user_confirmed = false :=
  ⟨rfl, rfl, rfl, rfl, rfl⟩

/-- C5: an update request with no set field reaches the early no-op return
before any provider call, and every attribute the provider receives comes
from an explicitly set, non-None field under its translated name. -/
theorem update_only_set_fields (username : String) (u : UserUpdate) :
    (u.username = none → u.email = none → u.phone_number = none →
      u.profile_image_url = none → u.updated_at = none →
      update username u = .noop "No attributes to update") ∧
    (∀ p ∈ updateAttributes u,
      (p.1 = "name" ∧ u.username = some (some p.2)) ∨
      (p.1 = "email" ∧ u.email = some (some p.2)) ∨
      (p.1 = "phone_number" ∧ u.phone_number = some (some p.2)) ∨
      (p.1 = "custom:profile_image_url" ∧
        u.profile_image_url = some (some p.2))) := by
  constructor
  · intro h1 h2 h3 h4 h5
    have he : updateAttributes u = [] := by
      simp [updateAttributes, attrEntry, h1, h2, h3, h4, h5]
    simp [update, he]
  · intro p hp
    simp only [updateAttributes, List.mem_append] at hp
    rcases hp with (((h | h) | h) | h) | h
    · obtain ⟨hm, hv⟩ := attrEntry_mem _ _ _ h
      exact Or.inl ⟨((Option.some.injEq _ _).mp hm).symm, hv⟩
    · obtain ⟨hm, hv⟩ := attrEntry_mem _ _ _ h
      exact Or.inr (Or.inl ⟨((Option.some.injEq _ _).mp hm).symm, hv⟩)
    · obtain ⟨hm, hv⟩ := attrEntry_mem _ _ _ h
      exact Or.inr (Or.inr (Or.inl ⟨((Option.some.injEq _ _).mp hm).symm, hv⟩))
    · obtain ⟨hm, hv⟩ := attrEntry_mem _ _ _ h
      exact Or.inr (Or.inr (Or.inr
        ⟨((Option.some.injEq _ _).mp hm).symm, hv⟩))
    · obtain ⟨hm, -⟩ := attrEntry_mem _ _ _ h
      exact Option.noConfusion hm

/-- C5 witness: the all-unset request is a no-op, and for a request setting
only the username the transmitted attribute is the translated name field. -/
theorem update_only_set_fields_witness :
    update "bob" ⟨none, none, none, none, none⟩ =
      UpdateOutcome.noop "No attributes to update" ∧
    ((("name", "n") : String × String).1 = "name" ∧
      (⟨some (some "n"), none, none, none, none⟩ : UserUpdate).username =
        some (some "n") ∨
     ((("name", "n") : String × String).1 = "email" ∧
      (⟨some (some "n"), none, none, none, none⟩ : UserUpdate).email =
        some (some "n")) ∨
     ((("name", "n") : String × String).1 = "phone_number" ∧
      (⟨some (some "n"), none, none, none, none⟩ : UserUpdate).phone_number =
        some (some "n")) ∨
     ((("name", "n") : String × String).1 = "custom:profile_image_url" ∧
      (⟨some (some "n"), none, none, none, none⟩ :
          UserUpdate).profile_image_url = some (some "n"))) :=
  ⟨(update_only_set_fields "bob" ⟨none, none, none, none, none⟩).1
      rfl rfl rfl rfl rfl,
   (update_only_set_fields "bob" ⟨some (some "n"), none, none, none, none⟩).2
      ("name", "n") (by decide)⟩

/-- C10: every transmitted attribute name lies in the fixed four-name set, the
`updated_at` field never influences the transmitted attributes, and a field
explicitly set to None contributes exactly what an unset field contributes. -/
theorem updateAttributes_frame (u : UserUpdate) :
    (∀ p ∈ updateAttributes u,
      p.1 ∈ (["email", "phone_number", "custom:profile_image_url", "name"] :
        List String)) ∧
    updateAttributes
        ⟨u.username, u.email, u.phone_number, u.profile_image_url, none⟩ =
      updateAttributes u ∧
    (u.username = some none → updateAttributes u =
      updateAttributes
        ⟨none, u.email, u.phone_number, u.profile_image_url, u.updated_at⟩) ∧
    (u.email = some none → updateAttributes u =
      updateAttributes
        ⟨u.username, none, u.phone_number, u.profile_image_url, u.updated_at⟩) ∧
    (u.phone_number = some none → updateAttributes u =
      updateAttributes
        ⟨u.username, u.email, none, u.profile_image_url, u.updated_at⟩) ∧
    (u.profile_image_url = some none → updateAttributes u =
      updateAttributes
        ⟨u.username, u.email, u.phone_number, none, u.updated_at⟩) := by
  refine ⟨?_, ?_, fun h => ?_, fun h => ?_, fun h => ?_, fun h => ?_⟩
  · intro p hp
    simp only [updateAttributes, List.mem_append] at hp
    rcases hp with (((h | h) | h) | h) | h
    · obtain ⟨hm, -⟩ := attrEntry_mem _ _ _ h
      have : p.1 = "name" := ((Option.some.injEq _ _).mp hm).symm
      simp [this]
    · obtain ⟨hm, -⟩ := attrEntry_mem _ _ _ h
      have : p.1 = "email" := ((Option.some.injEq _ _).mp hm).symm
      simp [this]
    · obtain ⟨hm, -⟩ := attrEntry_mem _ _ _ h
      have : p.1 = "phone_number" := ((Option.some.injEq _ _).mp hm).symm
      simp [this]
    · obtain ⟨hm, -⟩ := attrEntry_mem _ _ _ h
      have : p.1 = "custom:profile_image_url" :=
        ((Option.some.injEq _ _).mp hm).symm
      simp [this]
    · obtain ⟨hm, -⟩ := attrEntry_mem _ _ _ h
      exact Option.noConfusion hm
  · simp [updateAttributes, attrEntry_updated_at]
  · simp [updateAttributes, attrEntry, h]
  · simp [updateAttributes, attrEntry, h]
  · simp [updateAttributes, attrEntry, h]
  · simp [updateAttributes, attrEntry, h]

/-- C10 witness: for a request setting the username and the timestamp, the
transmitted name lies in the four-name set. -/
theorem updateAttributes_frame_witness :
    (("name", "n") : String × String).1 ∈
      (["email", "phone_number", "custom:profile_image_url", "name"] :
        List String) :=
  (updateAttributes_frame
      ⟨some (some "n"), none, none, none, some "ts"⟩).1 ("name", "n") (by decide)

/-- C8 counterexample: on the from-access-token path, an attribute bag with no
name, no preferred username and no email maps to the empty username — the
claimed never-empty invariant fails there, since this path has no
internal-identifier fallback. -/
theorem getCurrentUser_username_empty :
    (getCurrentUserOut []).username = "" := by decide

/-- C8 amended: on the list/get mapping path the chain does end at the
provider internal identifier, so whenever that identifier is present and
non-empty the mapped username is non-empty; on the from-access-token path the
username can be empty (see the counterexample). -/
theorem mapUser_username_nonempty (user : CognitoUser) (u : String)
    (hu : user.username = some u) (hne : u ≠ "") :
    (mapUser user).username ≠ "" := by
  rw [show (mapUser user).username =
      mapUsername user.attributes (user.username.getD "") from rfl, hu]
  exact pyOrStr_ne_empty _ _ (pyOrStr_ne_empty _ _ (pyOr_ne_empty _ _ hne))

/-- C8 witness: a user with internal identifier uuid-1 and an empty attribute
bag still maps to a non-empty username on the list/get path. -/
theorem mapUser_username_nonempty_witness :
    (mapUser ⟨[], some "uuid-1", none⟩).username ≠ "" :=
  mapUser_username_nonempty ⟨[], some "uuid-1", none⟩ "uuid-1" rfl (by decide)

/-- C9: the mapped email-verified flag is true exactly when the attribute is
present with a value whose lower-casing is the literal true; an absent
attribute yields false. -/
theorem mapUser_email_verified_iff (user : CognitoUser) :
    ((mapUser user).email_verified = true ↔
      ∃ v, attrsGet user.attributes "email_verified" = some v ∧
        strLower v = "true") ∧
    (attrsGet user.attributes "email_verified" = none →
      (mapUser user).email_verified = false) := by
  have e : (mapUser user).email_verified =
      (strLower ((attrsGet user.attributes "email_verified").getD "false") ==
        "true") := rfl
  constructor
  · rw [e]
    cases h : attrsGet user.attributes "email_verified" with
    | none =>
        rw [show (strLower ((none : Option String).getD "false") == "true") =
          false from by decide]
        simp
    | some v =>
        simp only [Option.getD_some]
        rw [beq_iff_eq]
        constructor
        · intro ht
          exact ⟨v, rfl, ht⟩
        · rintro ⟨w, hw, ht⟩
          obtain rfl : v = w := (Option.some.injEq _ _).mp hw
          exact ht
  · intro h
    rw [e, h]
    decide

/-- C9 witness: the attribute value TRUE in upper case yields a true flag, and
an empty attribute bag yields a false flag. -/
theorem mapUser_email_verified_iff_witness :
    (mapUser ⟨[("email_verified", "TRUE")], none, none⟩).email_verified =
      true ∧
    (mapUser ⟨[], none, none⟩).email_verified = false :=
  ⟨(mapUser_email_verified_iff
      ⟨[("email_verified", "TRUE")], none, none⟩).1.mpr
        ⟨"TRUE", by decide, by decide⟩,
   (mapUser_email_verified_iff ⟨[], none, none⟩).2 (by decide)⟩

end UserService

